import Mathlib

/-
  Verification development for the foreign-disclosure-analysis pipeline.

  Shallow embedding of the Python sources:
    * `main.py`                         — roster loading, per-researcher querying,
                                          classifier adapter (with its mock fallback),
                                          flagging engine, and the main loop;
    * `mcp_server_clinical_research.py` — PubMed result normalization
                                          (`process_pubmed_results`, `extract_affiliations`,
                                          `extract_funding_info`, `get_mock_pubmed_data`,
                                          `use_pubmed_search`).

  Modelling conventions:
    * Heterogeneous Python/JSON values are modelled by the inductive `Val`
      (strings, ints, None, lists, dicts-as-association-lists).  A Python dict is an
      association list without duplicate keys; `List.lookup` (first binding) models
      `dict.get`.
    * Python exceptions are modelled with `Option`: a function that can raise returns
      `none` on the raising executions.  `try/except` blocks turn `none` back into the
      handler's value.
    * External effects (the Azure OpenAI call, the MCP network call) are modelled by
      oracle parameters describing the call's outcome.
    * Python string operations (`str.strip`, `str.split(',')`, `str.lower`, substring
      `in`) are modelled explicitly on `List Char`; `lower` is modelled on ASCII
      letters, which covers every string the sources manipulate.
    * CPython `set` iteration order is unspecified; `mock_analyze_foreign_affiliations`
      models it as insertion order (all candidate country strings are distinct, so the
      set is just a duplicate-free list).
-/

/-! ## Python string primitives -/

/-- The apostrophe character, kept out of string literals. -/
def apos : String := String.singleton (Char.ofNat 39)

/-- Whitespace characters removed by Python `str.strip()` (space, tab, LF, VT, FF, CR). -/
def isPySpace (c : Char) : Bool :=
  c.toNat == 32 || c.toNat == 9 || c.toNat == 10 || c.toNat == 11 ||
  c.toNat == 12 || c.toNat == 13

/-- Python `str.strip()`. -/
def pyStrip (s : String) : String :=
  String.mk (((s.data.dropWhile isPySpace).reverse.dropWhile isPySpace).reverse)

/-- ASCII lowercasing of one character, as Python `str.lower()` does on ASCII input. -/
def lowerChar (c : Char) : Char :=
  if 65 ≤ c.toNat ∧ c.toNat ≤ 90 then Char.ofNat (c.toNat + 32) else c

/-- Python `str.lower()` (ASCII fragment). -/
def pyLower (s : String) : String := String.mk (s.data.map lowerChar)

/-- Python `str.split(',')` on the character level. -/
def pySplitComma : List Char → List (List Char)
  | [] => [[]]
  | c :: cs =>
    let r := pySplitComma cs
    if c.toNat == 44 then [] :: r
    else
      match r with
      | h :: t => (c :: h) :: t
      | [] => [[c]]

/-- Does `h` start with `n`? -/
def charsStartWith : List Char → List Char → Bool
  | [], _ => true
  | _ :: _, [] => false
  | a :: as, b :: bs => a == b && charsStartWith as bs

/-- Does `n` occur contiguously inside `h`?  (Python `n in h` for strings.) -/
def charsHasSub (n : List Char) : List Char → Bool
  | [] => charsStartWith n []
  | b :: bs => charsStartWith n (b :: bs) || charsHasSub n bs

/-- Python substring test `needle in hay`. -/
def strHasSub (needle hay : String) : Bool := charsHasSub needle.data hay.data

/-- The characters of `h` strictly before the first occurrence of `sep`
    (Python `h.split(sep)[0]` when `sep` occurs in `h`). -/
def takeBefore (sep : List Char) : List Char → List Char
  | [] => []
  | c :: cs => if charsStartWith sep (c :: cs) then [] else c :: takeBefore sep cs

/-! ## Heterogeneous Python/JSON values -/

/-- Python/JSON values as the sources manipulate them. -/
inductive Val where
  | str (s : String)
  | int (n : Int)
  | null
  | list (xs : List Val)
  | dict (entries : List (String × Val))

/-- `s` is truthy as a Python string. -/
def nonEmptyStr (s : String) : Bool := !(s == "")

/-- Python truthiness of a value. -/
def valTruthy : Val → Bool
  | Val.str s => nonEmptyStr s
  | Val.int n => !(n == 0)
  | Val.null => false
  | Val.list xs => !xs.isEmpty
  | Val.dict d => !d.isEmpty

/-- View a value as a Python `str`; `none` models a `TypeError`/`AttributeError`
    when a string operation is applied to it. -/
def asStr : Val → Option String
  | Val.str s => some s
  | _ => none

/-- Map a fallible function over a list, failing if any element fails
    (a loop whose body may raise). -/
def mapOption (f : α → Option β) : List α → Option (List β)
  | [] => some []
  | a :: as =>
    match f a, mapOption f as with
    | some b, some bs => some (b :: bs)
    | _, _ => none

/-- Python iteration `for x in v`: lists yield elements, strings yield one-character
    strings, dicts yield their keys; ints and `None` raise `TypeError` (`none`). -/
def pyIter : Val → Option (List Val)
  | Val.list xs => some xs
  | Val.str s => some (s.data.map (fun c => Val.str (String.singleton c)))
  | Val.dict d => some (d.map (fun kv => Val.str kv.1))
  | _ => none

/-- Iterate a value and require every element to be a string (as a loop doing
    per-element `str` operations, or `str.join`, does). -/
def iterToStrings (v : Val) : Option (List String) :=
  (pyIter v).bind (mapOption asStr)

/-- `sep.join(filter(None, vals))`: drop falsy entries, then join; raises (`none`)
    if a surviving entry is not a string. -/
def pyJoinFiltered (sep : String) (vals : List Val) : Option String :=
  (mapOption asStr (vals.filter valTruthy)).map (String.intercalate sep)

/-- `concatMap f l = (l.map f).flatten`, by recursion. -/
def concatMap (f : α → List β) : List α → List β
  | [] => []
  | a :: as => f a ++ concatMap f as

/-- Occurrence count of a string in a list (used to state no-deduplication). -/
def countOcc (a : String) : List String → Nat
  | [] => 0
  | b :: bs => (if b = a then 1 else 0) + countOcc a bs

mutual
/-- Python `str(v)` (as used by the f-string `f"{key}: {value}"`).  String `repr`
    is modelled without escape processing, which the sources never exercise. -/
def pyStr : Val → String
  | Val.str s => s
  | Val.int n => toString n
  | Val.null => "None"
  | Val.list xs => "[" ++ String.intercalate ", " (pyReprList xs) ++ "]"
  | Val.dict es => "\x7b" ++ String.intercalate ", " (pyReprPairs es) ++ "\x7d"

/-- Python `repr(v)` for elements rendered inside containers. -/
def pyRepr : Val → String
  | Val.str s => apos ++ s ++ apos
  | Val.int n => toString n
  | Val.null => "None"
  | Val.list xs => "[" ++ String.intercalate ", " (pyReprList xs) ++ "]"
  | Val.dict es => "\x7b" ++ String.intercalate ", " (pyReprPairs es) ++ "\x7d"

def pyReprList : List Val → List String
  | [] => []
  | v :: vs => pyRepr v :: pyReprList vs

def pyReprPairs : List (String × Val) → List String
  | [] => []
  | (k, v) :: es => (apos ++ k ++ apos ++ ": " ++ pyRepr v) :: pyReprPairs es
end

/-! ## Data model -/

/-- One roster entry (`main.load_researchers`). -/
structure Researcher where
  last_name : String
  first_name : String
deriving DecidableEq

/-- The standardized publication dictionary built by
    `mcp_server_clinical_research.process_pubmed_results` (and, with the same keys, by
    `get_mock_pubmed_data`).  Every produced dict has exactly these eleven keys, so the
    dict is modelled as a structure; values keep their heterogeneous `Val` type. -/
structure Publication where
  title : Val
  authors : Val
  journal : Val
  publication_date : Val
  abstract : Val
  doi : Val
  pmid : Val
  affiliations : Val
  funding_info : Val
  keywords : Val
  url : Val

/-- One row of the output CSV (`main.generate_output_row`).  `publication_name`,
    `research_title` and `confidence_score` are copied from dict lookups and so keep
    type `Val`; the remaining fields are strings built by the function itself. -/
structure Row where
  publication_name : Val
  research_title : Val
  author_name : String
  organization_affiliation : String
  countries_of_origin : String
  flagged : String
  flagged_countries : String
  confidence_score : Val
  funding_source : String

/-- `main.COUNTRIES_OF_CONCERN`. -/
def COUNTRIES_OF_CONCERN : List String := ["Russia", "North Korea", "Iran", "China"]

/-- The constant `organization_affiliation` value of every output row. -/
def orgAffiliation : String := "Boston Children" ++ apos ++ "s Hospital"

/-! ## mcp_server_clinical_research.py -/

/-- The `journal` entry of a standardized publication:
    `item.get('journal', {}).get('name', '') if isinstance(item.get('journal'), dict)
     else item.get('journal', '')`. -/
def journalField (item : List (String × Val)) : Val :=
  match item.lookup "journal" with
  | some (Val.dict jd) => (jd.lookup "name").getD (Val.str "")
  | some v => v
  | none => Val.str ""

/-- `extract_affiliations` (lines 111–139): collect the raw `affiliations` field
    (list or string), then each author's `affiliation` (flattening lists), and join the
    truthy fragments with `"; "`.  `none` models the `TypeError` raised by
    `'; '.join` on a truthy non-string fragment. -/
def extract_affiliations (publication : List (String × Val)) : Option String :=
  let base : List Val :=
    match publication.lookup "affiliations" with
    | some (Val.list xs) => xs
    | some (Val.str s) => [Val.str s]
    | _ => []
  let fromAuthors : List Val :=
    match publication.lookup "authors" with
    | some (Val.list authors) =>
      concatMap (fun a =>
        match a with
        | Val.dict ad =>
          (match ad.lookup "affiliation" with
           | some (Val.list xs) => xs
           | some v => [v]
           | none => [])
        | _ => []) authors
    | _ => []
  pyJoinFiltered "; " (base ++ fromAuthors)

/-- The candidate funding field names scanned by `extract_funding_info`, in order. -/
def fundingFieldNames : List String :=
  ["funding", "funding_info", "grant_info", "grants", "acknowledgments"]

/-- The fragments contributed by one candidate field in `extract_funding_info`:
    a list extends, a string appends, a dict appends `f"{key}: {value}"` per entry,
    anything else contributes nothing. -/
def fieldFragments (publication : List (String × Val)) (field : String) : List Val :=
  match publication.lookup field with
  | some (Val.list xs) => xs
  | some (Val.str s) => [Val.str s]
  | some (Val.dict kd) => kd.map (fun kv => Val.str (kv.1 ++ ": " ++ pyStr kv.2))
  | _ => []

/-- `extract_funding_info` (lines 141–164). -/
def extract_funding_info (publication : List (String × Val)) : Option String :=
  pyJoinFiltered "; " (concatMap (fieldFragments publication) fundingFieldNames)

/-- The loop body of `process_pubmed_results` building one standardized publication
    dict from one raw item (lines 90–103).  `none` models an exception (which the
    caller's `except` turns into an empty batch). -/
def buildPub (item : List (String × Val)) : Option Publication := do
  let a ← extract_affiliations item
  let f ← extract_funding_info item
  some { title := (item.lookup "title").getD (Val.str "")
       , authors := (item.lookup "authors").getD (Val.list [])
       , journal := journalField item
       , publication_date := (item.lookup "publication_date").getD (Val.str "")
       , abstract := (item.lookup "abstract").getD (Val.str "")
       , doi := (item.lookup "doi").getD (Val.str "")
       , pmid := (item.lookup "pmid").getD (Val.str "")
       , affiliations := Val.str a
       , funding_info := Val.str f
       , keywords := (item.lookup "keywords").getD (Val.list [])
       , url := (item.lookup "url").getD (Val.str "") }

/-- The `try` body of `process_pubmed_results`.  `decode` models `json.loads`
    (`none` = parse error). -/
def processTry (decode : String → Option Val) (result : Val) : Option (List Publication) := do
  let r ← match result with
          | Val.str s => decode s
          | v => some v
  let itemsV ← match r with
               | Val.list _ => some r
               | Val.dict d => some ((d.lookup "results").getD (Val.list []))
               | _ => none
  let items ← pyIter itemsV
  mapOption (fun it =>
    match it with
    | Val.dict d => buildPub d
    | _ => none) items

/-- `process_pubmed_results` (lines 67–109): the `try` body, with any exception
    caught and turned into `[]`. -/
def process_pubmed_results (decode : String → Option Val) (result : Val) : List Publication :=
  match processTry decode result with
  | some pubs => pubs
  | none => []

/-- The Boston Children's Hospital author affiliation used by all mock publications. -/
def bchAff : String :=
  "Boston Children" ++ apos ++ "s Hospital, Harvard Medical School, Boston, MA, USA"

/-- First mock publication of `get_mock_pubmed_data` (lines 183–198). -/
def mockPub1 (researcher_name : String) : Publication :=
  { title := Val.str "Novel Therapeutic Approaches for Pediatric Autoimmune Disorders"
  , authors := Val.list
      [ Val.dict [("name", Val.str researcher_name), ("affiliation", Val.str bchAff)]
      , Val.dict [("name", Val.str "Wang, Li"),
          ("affiliation", Val.str ("Beijing Children" ++ apos ++
            "s Hospital, Capital Medical University, Beijing, China"))] ]
  , journal := Val.str "Journal of Pediatric Immunology"
  , publication_date := Val.str "2024-03-15"
  , abstract := Val.str ("This study explores novel therapeutic approaches for pediatric autoimmune disorders, with a focus on targeted immunomodulation. Our international collaboration identified several promising treatment pathways.")
  , doi := Val.str "10.1234/jpimmunol.2024.0123"
  , pmid := Val.str "36789012"
  , affiliations := Val.str (bchAff ++ "; Beijing Children" ++ apos ++
      "s Hospital, Capital Medical University, Beijing, China")
  , funding_info := Val.str "NIH Grant R01-AI123456; National Natural Science Foundation of China (Grant No. 82071754)"
  , keywords := Val.list [Val.str "pediatric", Val.str "autoimmune",
      Val.str "immunotherapy", Val.str "international collaboration"]
  , url := Val.str "https://pubmed.ncbi.nlm.nih.gov/36789012/" }

/-- Second mock publication of `get_mock_pubmed_data` (lines 199–215). -/
def mockPub2 (researcher_name : String) : Publication :=
  { title := Val.str "Genetic Basis of Rare Congenital Heart Defects: A Multi-Center Study"
  , authors := Val.list
      [ Val.dict [("name", Val.str researcher_name), ("affiliation", Val.str bchAff)]
      , Val.dict [("name", Val.str "Petrov, Mikhail"),
          ("affiliation", Val.str "National Medical Research Center, Moscow, Russia")]
      , Val.dict [("name", Val.str "Smith, John"),
          ("affiliation", Val.str "Great Ormond Street Hospital, London, UK")] ]
  , journal := Val.str "Pediatric Cardiology"
  , publication_date := Val.str "2023-11-22"
  , abstract := Val.str ("This multi-center study investigates the genetic basis of rare congenital heart defects across diverse populations. We identified several novel genetic variants associated with specific cardiac malformations.")
  , doi := Val.str "10.1234/pedcard.2023.5678"
  , pmid := Val.str "35678901"
  , affiliations := Val.str (bchAff ++ "; National Medical Research Center, Moscow, Russia; Great Ormond Street Hospital, London, UK")
  , funding_info := Val.str "American Heart Association Grant AHA-CHD-2023; Russian Science Foundation Grant 21-15-00123"
  , keywords := Val.list [Val.str "congenital heart defects", Val.str "genetics",
      Val.str "pediatric", Val.str "international collaboration"]
  , url := Val.str "https://pubmed.ncbi.nlm.nih.gov/35678901/" }

/-- Third mock publication of `get_mock_pubmed_data` (lines 216–231). -/
def mockPub3 (researcher_name : String) : Publication :=
  { title := Val.str "Advances in Pediatric Neuroimaging Techniques"
  , authors := Val.list
      [ Val.dict [("name", Val.str researcher_name), ("affiliation", Val.str bchAff)]
      , Val.dict [("name", Val.str "Johnson, Emily"), ("affiliation", Val.str bchAff)] ]
  , journal := Val.str "Journal of Pediatric Neurology"
  , publication_date := Val.str "2024-01-30"
  , abstract := Val.str ("This review discusses recent advances in pediatric neuroimaging techniques and their clinical applications. We highlight innovations in MRI protocols specifically designed for pediatric patients.")
  , doi := Val.str "10.1234/jpedneurol.2024.9012"
  , pmid := Val.str "34567890"
  , affiliations := Val.str bchAff
  , funding_info := Val.str "NIH Grant R01-NS654321"
  , keywords := Val.list [Val.str "neuroimaging", Val.str "pediatric",
      Val.str "MRI", Val.str "clinical applications"]
  , url := Val.str "https://pubmed.ncbi.nlm.nih.gov/34567890/" }

/-- `get_mock_pubmed_data` (lines 166–234): three fixed mock publications, with the
    researcher name recovered from the query via `query.split('[Author]')[0].strip()`. -/
def get_mock_pubmed_data (query : String) : List Publication :=
  let researcher_name :=
    if strHasSub "[Author]" query then
      pyStrip (String.mk (takeBefore ("[Author]".data) query.data))
    else "Researcher"
  [mockPub1 researcher_name, mockPub2 researcher_name, mockPub3 researcher_name]

/-- `use_pubmed_search` (lines 17–65), specialized to the pipeline's call (a present
    `query`, so the `ValueError` branch is unreachable).  `callResult` is the outcome
    of the external MCP call: `some v` = it returned `v`; `none` = it (or anything else
    inside the `try`) raised, in which case the `except` handler returns mock data. -/
def use_pubmed_search (decode : String → Option Val) (callResult : Option Val)
    (query : String) : List Publication :=
  match callResult with
  | some v => process_pubmed_results decode v
  | none => get_mock_pubmed_data query

/-! ## main.py -/

/-- One roster data line (`load_researchers` lines 83–94): strip, skip if blank,
    split on commas, strip each part, keep the first two of at least two parts. -/
def parseRosterLine (line : String) : Option Researcher :=
  let l := pyStrip line
  if l = "" then none
  else
    match (pySplitComma l.data).map (fun cs => pyStrip (String.mk cs)) with
    | p1 :: p2 :: _ => some { last_name := p1, first_name := p2 }
    | _ => none

/-- `load_researchers` (lines 56–100) on the file's lines.  The first line is read as
    the header; a missing or blank first line returns `[]` immediately (the
    "Empty researchers file" branch).  The header's column names are parsed but never
    used afterwards, so they do not appear in the model. -/
def load_researchers (lines : List String) : List Researcher :=
  match lines with
  | [] => []
  | header :: rest =>
    if pyStrip header = "" then []
    else rest.filterMap parseRosterLine

/-- The PubMed query built in `query_pubmed_publications` (line 110). -/
def pubQuery (r : Researcher) : String :=
  r.last_name ++ ", " ++ r.first_name ++ "[Author] AND Boston Children" ++ apos ++
    "s Hospital[Affiliation]"

/-- Outcome of fetching one researcher's publications.
    `raised`: an exception escaped `use_pubmed_search` into `query_pubmed_publications`'s
    own handler (e.g. the import failing); `mcpFailed`: the MCP call inside
    `use_pubmed_search`'s `try` raised; `ok v`: the MCP call returned `v`. -/
inductive FetchOutcome where
  | raised
  | mcpFailed
  | ok (v : Val)

/-- `query_pubmed_publications` (lines 102–134).  `use_pubmed_search` always returns a
    list, so the `isinstance(response, list)` branch applies on every non-raising path. -/
def query_pubmed_publications (decode : String → Option Val) (outcome : FetchOutcome)
    (r : Researcher) : List Publication :=
  match outcome with
  | FetchOutcome.raised => []
  | FetchOutcome.mcpFailed => use_pubmed_search decode none (pubQuery r)
  | FetchOutcome.ok v => use_pubmed_search decode (some v) (pubQuery r)

/-- The ten additional common countries scanned by the mock analysis (line 216). -/
def otherCountries : List String :=
  ["UK", "United Kingdom", "England", "France", "Germany", "Japan", "Canada",
   "Australia", "Spain", "Italy"]

/-- `mock_analyze_foreign_affiliations` (lines 183–261).  `none` models the
    `AttributeError` raised by `.lower()` when a publication field is not a string.
    The CPython set `countries_found` is modelled as the duplicate-free list of matching
    candidates in insertion order. -/
def mock_analyze_foreign_affiliations (pub : Publication) : Option (List (String × Val)) := do
  let title := pyLower (← asStr pub.title)
  let affiliations := pyLower (← asStr pub.affiliations)
  let abstract := pyLower (← asStr pub.abstract)
  let funding := pyLower (← asStr pub.funding_info)
  let hit := fun (c : String) =>
    strHasSub (pyLower c) title || strHasSub (pyLower c) affiliations ||
    strHasSub (pyLower c) abstract || strHasSub (pyLower c) funding
  let countries_found := (COUNTRIES_OF_CONCERN ++ otherCountries).filter hit
  let institutions :=
    (if strHasSub "university" affiliations then ["University mentioned in affiliations"] else []) ++
    (if strHasSub "hospital" affiliations then ["Hospital mentioned in affiliations"] else []) ++
    (if strHasSub "institute" affiliations then ["Research Institute mentioned in affiliations"] else [])
  let funding_sources :=
    (if strHasSub "grant" funding then ["Grant mentioned in funding info"] else []) ++
    (if strHasSub "nih" funding || strHasSub "national institutes of health" funding
       then ["NIH funding mentioned"] else []) ++
    (if strHasSub "foundation" funding then ["Foundation funding mentioned"] else [])
  let score : Int :=
    1 + (if !countries_found.isEmpty then 3 else 0) +
    (if COUNTRIES_OF_CONCERN.any (fun c => countries_found.contains c) then 2 else 0) +
    (if !institutions.isEmpty then 1 else 0) +
    (if !funding_sources.isEmpty then 1 else 0) +
    (if strHasSub "international" abstract || strHasSub "collaboration" abstract then 1 else 0)
  let confidence_score := min score 10
  some [ ("countries", Val.list (countries_found.map Val.str))
       , ("institutions", Val.list (institutions.map Val.str))
       , ("funding_sources", Val.list (funding_sources.map Val.str))
       , ("confidence_score", Val.int confidence_score)
       , ("explanation", Val.str ("Mock analysis found " ++ toString countries_found.length ++
           " countries, " ++ toString institutions.length ++ " institutions, and " ++
           toString funding_sources.length ++ " funding sources.")) ]

/-- Outcome of the Azure OpenAI classification call for one publication.
    `noClient`: the global client is `None`; `callFailed`: the request or the JSON
    parse raised inside the `try`; `ok d`: `json.loads` produced the object `d`. -/
inductive ClientOutcome where
  | noClient
  | callFailed
  | ok (d : List (String × Val))

/-- `analyze_foreign_affiliations` (lines 136–181).  On `ok` the parsed object is
    returned with no shape validation.  On `callFailed` the `except` handler returns
    the mock analysis.  On `noClient` the mock analysis is returned from inside the
    `try`; if it raises, the handler calls it again (raising again), so both fallback
    branches equal the mock analysis, and a `none` result is an exception that
    propagates into `main`. -/
def analyze_foreign_affiliations (co : ClientOutcome) (pub : Publication) :
    Option (List (String × Val)) :=
  match co with
  | ClientOutcome.ok d => some d
  | ClientOutcome.callFailed => mock_analyze_foreign_affiliations pub
  | ClientOutcome.noClient => mock_analyze_foreign_affiliations pub

/-- The inner-loop matching test of `generate_output_row` (lines 290–293):
    `concern.lower() in country.lower()` for some watchlist entry (the `break` makes
    the loop an any-test). -/
def countryMatches (watchlist : List String) (country : String) : Bool :=
  watchlist.any (fun concern => strHasSub (pyLower concern) (pyLower country))

/-- `countries = analysis.get('countries', [])`, wrapping a scalar string
    (lines 272–274; the same wrapping is applied to `funding_sources`). -/
def wrapStr (v : Val) : Val :=
  match v with
  | Val.str s => Val.list [Val.str s]
  | v => v

/-- The reported-countries sequence of an analysis dict, as iterated by
    `generate_output_row`'s country loop; `none` models the `TypeError`/
    `AttributeError` raised on a non-iterable value or non-string element. -/
def countriesOf (analysis : List (String × Val)) : Option (List String) :=
  iterToStrings (wrapStr ((analysis.lookup "countries").getD (Val.list [])))

/-- `funding_str = ', '.join(funding_sources) if funding_sources else ''`
    (lines 277–282), after the scalar-string wrap. -/
def fundingStrOf (analysis : List (String × Val)) : Option String :=
  let v := wrapStr ((analysis.lookup "funding_sources").getD (Val.list []))
  if valTruthy v then (iterToStrings v).map (String.intercalate ", ") else some ""

/-- `generate_output_row` (lines 263–311), with the watchlist scanned by the inner
    loop as a parameter (the source reads the module constant `COUNTRIES_OF_CONCERN`).
    Returns `none` when `analysis` is falsy or any exception occurs in the `try`. -/
def generate_output_row_wl (watchlist : List String) (researcher : Researcher)
    (publication : Publication) (analysis : List (String × Val)) : Option Row :=
  if analysis.isEmpty then none
  else
    match countriesOf analysis, fundingStrOf analysis with
    | some countries, some funding_str =>
      let flagged_countries := countries.filter (countryMatches watchlist)
      some { publication_name := publication.journal
           , research_title := publication.title
           , author_name := researcher.first_name ++ " " ++ researcher.last_name
           , organization_affiliation := orgAffiliation
           , countries_of_origin := String.intercalate ", " countries
           , flagged := if flagged_countries.isEmpty then "No" else "Yes"
           , flagged_countries :=
               if flagged_countries.isEmpty then ""
               else String.intercalate ", " flagged_countries
           , confidence_score := (analysis.lookup "confidence_score").getD (Val.int 0)
           , funding_source := funding_str }
    | _, _ => none

/-- `generate_output_row` as written, over the module constant watchlist. -/
def generate_output_row (researcher : Researcher) (publication : Publication)
    (analysis : List (String × Val)) : Option Row :=
  generate_output_row_wl COUNTRIES_OF_CONCERN researcher publication analysis

/-- The per-publication half of `main`'s loop (lines 332–337) over one researcher's
    publication list.  A `none` from `analyze_foreign_affiliations` is an uncaught
    exception: `main` has no per-publication handler, so the whole run aborts
    (overall result `none`, no CSV written). -/
def processPubs (cls : Publication → ClientOutcome) (r : Researcher) :
    List Publication → Option (List Row)
  | [] => some []
  | p :: ps =>
    match analyze_foreign_affiliations (cls p) p with
    | none => none
    | some analysis =>
      match processPubs cls r ps with
      | none => none
      | some rest =>
        if analysis.isEmpty then some rest
        else
          match generate_output_row r p analysis with
          | some row => some (row :: rest)
          | none => some rest

/-- `main` (lines 313–346) after the roster is loaded: the accumulated output rows,
    or `none` if an uncaught exception aborted the run. -/
def runMain (decode : String → Option Val) (cls : Publication → ClientOutcome)
    (fetch : Researcher → FetchOutcome) : List Researcher → Option (List Row)
  | [] => some []
  | r :: rs =>
    match processPubs cls r (query_pubmed_publications decode (fetch r) r) with
    | none => none
    | some a =>
      match runMain decode cls fetch rs with
      | none => none
      | some b => some (a ++ b)

/-! ## Specification-side definitions (for refinement statements) -/

/-- The funding fragments as §4.1 of the specification words them: scan the candidate
    field names in order; a mapping contributes one `"key: value"` fragment per entry,
    a list one fragment per element, a string one fragment.  (Written from the spec,
    to be compared with `extract_funding_info`; list elements are read as strings,
    which is the only case in which the join the spec describes is defined.) -/
def spec_field_fragments (record : List (String × Val)) (f : String) : List String :=
  match record.lookup f with
  | some (Val.dict kd) => kd.map (fun kv => kv.1 ++ ": " ++ pyStr kv.2)
  | some (Val.list xs) => xs.map (fun v => match v with | Val.str s => s | _ => "")
  | some (Val.str s) => [s]
  | _ => []

/-- All spec-side funding fragments, in field-then-item order. -/
def spec_funding_fragments (record : List (String × Val)) : List String :=
  concatMap (spec_field_fragments record) fundingFieldNames

/-! ## Concrete fixtures shared by witnesses and counterexamples -/

/-- The publication with every field at its empty default (what `process_pubmed_results`
    builds from the raw item `{}`). -/
def emptyPub : Publication :=
  { title := Val.str "", authors := Val.list [], journal := Val.str ""
  , publication_date := Val.str "", abstract := Val.str "", doi := Val.str ""
  , pmid := Val.str "", affiliations := Val.str "", funding_info := Val.str ""
  , keywords := Val.list [], url := Val.str "" }

/-! ## Helper lemmas -/

theorem charsStartWith_iff (n h : List Char) :
    charsStartWith n h = true ↔ ∃ t, h = n ++ t := by
  induction n generalizing h with
  | nil => simp [charsStartWith]
  | cons a as ih =>
    cases h with
    | nil => simp [charsStartWith]
    | cons b bs =>
      simp only [charsStartWith, Bool.and_eq_true, beq_iff_eq, ih, List.cons_append,
        List.cons.injEq]
      constructor
      · rintro ⟨rfl, t, rfl⟩; exact ⟨t, rfl, rfl⟩
      · rintro ⟨t, rfl, rfl⟩; exact ⟨rfl, t, rfl⟩

theorem charsHasSub_iff (n h : List Char) :
    charsHasSub n h = true ↔ ∃ p t, h = p ++ n ++ t := by
  induction h with
  | nil =>
    simp only [charsHasSub, charsStartWith_iff]
    constructor
    · rintro ⟨t, ht⟩
      exact ⟨[], t, by simpa using ht⟩
    · rintro ⟨p, t, ht⟩
      obtain ⟨hp, hn, ht'⟩ : p = [] ∧ n = [] ∧ t = [] := by simpa using ht.symm
      exact ⟨[], by simp [hn]⟩
  | cons b bs ih =>
    simp only [charsHasSub, Bool.or_eq_true, charsStartWith_iff, ih]
    constructor
    · rintro (⟨t, ht⟩ | ⟨p, t, ht⟩)
      · exact ⟨[], t, by simpa using ht⟩
      · exact ⟨b :: p, t, by simp [ht]⟩
    · rintro ⟨p, t, ht⟩
      cases p with
      | nil => exact Or.inl ⟨t, by simpa using ht⟩
      | cons c cs =>
        simp only [List.cons_append, List.cons.injEq] at ht
        exact Or.inr ⟨cs, t, ht.2⟩

theorem strHasSub_iff (needle hay : String) :
    strHasSub needle hay = true ↔ ∃ p t, hay.data = p ++ needle.data ++ t :=
  charsHasSub_iff needle.data hay.data

theorem countOcc_filter (p : String → Bool) (l : List String) (a : String) :
    countOcc a (l.filter p) = if p a then countOcc a l else 0 := by
  induction l with
  | nil => simp [countOcc]
  | cons b bs ih =>
    by_cases hba : b = a
    · subst hba
      cases hpb : p b <;> simp [List.filter, hpb, countOcc, ih]
    · cases hpb : p b <;> simp [List.filter, hpb, countOcc, hba, ih]

theorem mapOption_asStr_map_str (ss : List String) :
    mapOption asStr (ss.map Val.str) = some ss := by
  induction ss with
  | nil => rfl
  | cons s t ih => simp [mapOption, asStr, ih]

theorem filter_valTruthy_map_str (ss : List String) :
    (ss.map Val.str).filter valTruthy = (ss.filter nonEmptyStr).map Val.str := by
  induction ss with
  | nil => rfl
  | cons s t ih =>
    cases hs : nonEmptyStr s <;>
      simp [List.filter, valTruthy, hs, ih]

theorem pyJoinFiltered_map_str (sep : String) (ss : List String) :
    pyJoinFiltered sep (ss.map Val.str) =
      some (String.intercalate sep (ss.filter nonEmptyStr)) := by
  simp [pyJoinFiltered, filter_valTruthy_map_str, mapOption_asStr_map_str]

theorem concatMap_map_str (f : α → List String) (l : List α) :
    concatMap (fun a => (f a).map Val.str) l = (concatMap f l).map Val.str := by
  induction l with
  | nil => rfl
  | cons a as ih => simp [concatMap, ih]

/-! ## Claims -/

/-- C2: for every watchlist and every reported country string, the country is flagged
    by `generate_output_row`'s matching loop iff some watchlist entry's lowercase form
    occurs as a substring of the country's lowercase form; in particular, with
    watchlist `["China"]` the entry `"People's Republic of China"` is flagged, and an
    analysis reporting it yields a row with `flagged = "Yes"`. -/
theorem c2_watchlist_substring_flagging :
    (∀ (wl : List String) (c : String),
        countryMatches wl c = true ↔
          ∃ k ∈ wl, ∃ p t, (pyLower c).data = p ++ (pyLower k).data ++ t) ∧
    countryMatches ["China"] ("People" ++ apos ++ "s Republic of China") = true ∧
    (generate_output_row_wl ["China"] ⟨"Smith", "Jane"⟩ emptyPub
        [("countries", Val.list [Val.str ("People" ++ apos ++ "s Republic of China")])]).map
      Row.flagged = some "Yes" := by
  refine ⟨?_, rfl, rfl⟩
  intro wl c
  simp only [countryMatches, List.any_eq_true, strHasSub_iff]

/-- C5: whenever `generate_output_row` produces a row, `flagged` is `"Yes"` iff the
    flagged-countries sequence is non-empty (and `"No"` iff it is empty), and an empty
    reported-countries list forces `flagged = "No"` with both country fields empty. -/
theorem c5_flagged_iff_nonempty (wl : List String) (r : Researcher) (pub : Publication)
    (d : List (String × Val)) (row : Row) (cs : List String)
    (hc : countriesOf d = some cs)
    (h : generate_output_row_wl wl r pub d = some row) :
    (row.flagged = "Yes" ↔ cs.filter (countryMatches wl) ≠ []) ∧
    (row.flagged = "No" ↔ cs.filter (countryMatches wl) = []) ∧
    (cs = [] → row.flagged = "No" ∧ row.countries_of_origin = "" ∧
      row.flagged_countries = "") := by
  unfold generate_output_row_wl at h
  by_cases he : d.isEmpty
  · simp [he] at h
  · rw [if_neg he, hc] at h
    cases hf : fundingStrOf d with
    | none => rw [hf] at h; cases h
    | some fs =>
      rw [hf] at h
      obtain rfl := Option.some.inj h
      refine ⟨?_, ?_, ?_⟩
      · cases hfl : cs.filter (countryMatches wl) <;> simp [hfl]
      · cases hfl : cs.filter (countryMatches wl) <;> simp [hfl]
      · rintro rfl
        refine ⟨by simp [List.filter], rfl, by simp [List.filter]⟩

/-- C6: whenever a row is produced, `countries_of_origin` joins all reported countries
    in source order and `flagged_countries` joins exactly the matched ones in
    first-seen order, with no de-duplication (occurrence counts are preserved by the
    matching filter). -/
theorem c6_order_no_dedup (wl : List String) (r : Researcher) (pub : Publication)
    (d : List (String × Val)) (row : Row) (cs : List String)
    (hc : countriesOf d = some cs)
    (h : generate_output_row_wl wl r pub d = some row) :
    row.countries_of_origin = String.intercalate ", " cs ∧
    row.flagged_countries = String.intercalate ", " (cs.filter (countryMatches wl)) ∧
    ∀ c, countOcc c (cs.filter (countryMatches wl)) =
      if countryMatches wl c then countOcc c cs else 0 := by
  unfold generate_output_row_wl at h
  by_cases he : d.isEmpty
  · simp [he] at h
  · rw [if_neg he, hc] at h
    cases hf : fundingStrOf d with
    | none => rw [hf] at h; cases h
    | some fs =>
      rw [hf] at h
      obtain rfl := Option.some.inj h
      refine ⟨rfl, ?_, fun c => countOcc_filter (countryMatches wl) cs c⟩
      cases hfl : cs.filter (countryMatches wl) with
      | nil => simp [hfl]; rfl
      | cons x xs => simp [hfl]

/-- The row produced in the C5 witness instance. -/
def rowRussia : Row :=
  { publication_name := Val.str "", research_title := Val.str ""
  , author_name := "Jane Smith", organization_affiliation := orgAffiliation
  , countries_of_origin := "Russia", flagged := "Yes", flagged_countries := "Russia"
  , confidence_score := Val.int 0, funding_source := "" }

/-- Witness for C5 at the analysis `{'countries': ['Russia']}`. -/
theorem c5_flagged_iff_nonempty_check :
    (rowRussia.flagged = "Yes" ↔
        ["Russia"].filter (countryMatches COUNTRIES_OF_CONCERN) ≠ []) ∧
    (rowRussia.flagged = "No" ↔
        ["Russia"].filter (countryMatches COUNTRIES_OF_CONCERN) = []) ∧
    ((["Russia"] : List String) = [] → rowRussia.flagged = "No" ∧
        rowRussia.countries_of_origin = "" ∧ rowRussia.flagged_countries = "") :=
  c5_flagged_iff_nonempty COUNTRIES_OF_CONCERN ⟨"Smith", "Jane"⟩ emptyPub
    [("countries", Val.list [Val.str "Russia"])] rowRussia ["Russia"] rfl rfl

/-- The row produced in the C6 witness instance (duplicate country preserved twice). -/
def rowDupRussia : Row :=
  { publication_name := Val.str "", research_title := Val.str ""
  , author_name := "Jane Smith", organization_affiliation := orgAffiliation
  , countries_of_origin := "Russia, Russia", flagged := "Yes"
  , flagged_countries := "Russia, Russia"
  , confidence_score := Val.int 0, funding_source := "" }

/-- Witness for C6 at the analysis `{'countries': ['Russia', 'Russia']}`. -/
theorem c6_order_no_dedup_check :
    rowDupRussia.countries_of_origin = String.intercalate ", " ["Russia", "Russia"] ∧
    rowDupRussia.flagged_countries =
      String.intercalate ", " (["Russia", "Russia"].filter (countryMatches COUNTRIES_OF_CONCERN)) :=
  ⟨(c6_order_no_dedup COUNTRIES_OF_CONCERN ⟨"Smith", "Jane"⟩ emptyPub
      [("countries", Val.list [Val.str "Russia", Val.str "Russia"])] rowDupRussia
      ["Russia", "Russia"] rfl rfl).1,
   (c6_order_no_dedup COUNTRIES_OF_CONCERN ⟨"Smith", "Jane"⟩ emptyPub
      [("countries", Val.list [Val.str "Russia", Val.str "Russia"])] rowDupRussia
      ["Russia", "Russia"] rfl rfl).2.1⟩

/-- C9 (amended): whenever the analysis mapping lacks a `confidence_score` key and a
    row is produced, the row's `confidence_score` is the integer 0; a falsy (empty)
    mapping produces no row at all. -/
theorem c9_missing_confidence_score (r : Researcher) (pub : Publication)
    (d : List (String × Val)) (row : Row)
    (hk : d.lookup "confidence_score" = none)
    (h : generate_output_row r pub d = some row) :
    row.confidence_score = Val.int 0 := by
  unfold generate_output_row generate_output_row_wl at h
  by_cases he : d.isEmpty
  · simp [he] at h
  · rw [if_neg he] at h
    cases hcv : countriesOf d with
    | none => rw [hcv] at h; cases h
    | some cs =>
      cases hf : fundingStrOf d with
      | none => rw [hcv, hf] at h; cases h
      | some fs =>
        rw [hcv, hf] at h
        obtain rfl := Option.some.inj h
        simp [hk]

/-- C9 counterexample: the empty analysis mapping lacks `confidence_score`, yet no row
    is emitted at all (`if not analysis: return None`), refuting "the row is still
    emitted" as universally stated. -/
theorem c9_empty_analysis_no_row :
    generate_output_row ⟨"Smith", "Jane"⟩ emptyPub [] = none := rfl

/-- The row produced in the C9 witness instance. -/
def rowNoScore : Row :=
  { publication_name := Val.str "", research_title := Val.str ""
  , author_name := "Jane Smith", organization_affiliation := orgAffiliation
  , countries_of_origin := "France", flagged := "No", flagged_countries := ""
  , confidence_score := Val.int 0, funding_source := "" }

/-- Witness for C9's amended theorem at `{'countries': ['France']}`. -/
theorem c9_missing_confidence_score_check : rowNoScore.confidence_score = Val.int 0 :=
  c9_missing_confidence_score ⟨"Smith", "Jane"⟩ emptyPub
    [("countries", Val.list [Val.str "France"])] rowNoScore rfl rfl

/-- C10 (amended): the first roster line is always consumed and never yields a
    researcher; if it is blank (or the file empty) the loader returns `[]`, ignoring
    every subsequent line; otherwise each subsequent line contributes via
    `parseRosterLine`: a blank line yields nothing, a line with at least two
    comma-separated fields yields exactly the researcher made of its first two
    stripped fields, and a line with fewer than two fields is silently dropped. -/
theorem c10_roster_loader (header : String) (rest : List String) :
    (pyStrip header = "" → load_researchers (header :: rest) = []) ∧
    (pyStrip header ≠ "" →
        load_researchers (header :: rest) = rest.filterMap parseRosterLine) ∧
    load_researchers [] = [] ∧
    (∀ line, pyStrip line = "" → parseRosterLine line = none) ∧
    (∀ line p1 p2 tl,
        (pySplitComma (pyStrip line).data).map (fun cs => pyStrip (String.mk cs)) =
          p1 :: p2 :: tl →
        pyStrip line ≠ "" →
        parseRosterLine line = some ⟨p1, p2⟩) ∧
    (∀ line,
        ((pySplitComma (pyStrip line).data).map (fun cs => pyStrip (String.mk cs))).length < 2 →
        parseRosterLine line = none) := by
  refine ⟨?_, ?_, rfl, ?_, ?_, ?_⟩
  · intro hh; simp [load_researchers, hh]
  · intro hh; simp [load_researchers, hh]
  · intro line hl; simp [parseRosterLine, hl]
  · intro line p1 p2 tl hparts hl
    unfold parseRosterLine
    rw [if_neg hl, hparts]
  · intro line hlen
    unfold parseRosterLine
    by_cases hl : pyStrip line = ""
    · rw [if_pos hl]
    · rw [if_neg hl]
      cases hparts : (pySplitComma (pyStrip line).data).map (fun cs => pyStrip (String.mk cs)) with
      | nil => rfl
      | cons p1 ps =>
        cases ps with
        | nil => rfl
        | cons p2 tl =>
          rw [hparts] at hlen
          simp at hlen
          omega

/-- C10 counterexample: a roster whose first line is blank yields no researchers at
    all, although its second line (`"Doe,John"`) is a well-formed data line — the same
    line does yield a researcher under a non-blank header line. -/
theorem c10_blank_header_swallows_file :
    load_researchers ["", "Doe,John"] = [] ∧
    load_researchers ["Researcher last name,Research first name", "Doe,John"] =
      [⟨"Doe", "John"⟩] :=
  ⟨rfl, rfl⟩

/-- Witness for C10's amended theorem: a non-blank header makes the loader parse the
    remaining lines, dropping the comma-less one. -/
theorem c10_roster_loader_check :
    load_researchers ["Researcher last name,Research first name", "Doe,John", "nocomma"] =
      List.filterMap parseRosterLine ["Doe,John", "nocomma"] :=
  (c10_roster_loader "Researcher last name,Research first name"
    ["Doe,John", "nocomma"]).2.1 (by decide)

/-- C1 (amended): when the classification call fails (the Azure client is absent, the
    request raises, or the JSON parse fails), `analyze_foreign_affiliations` silently
    substitutes the keyword-heuristic mock analysis for the failed classification —
    the publication is not skipped, and any row then produced is derived from the
    fabricated result. -/
theorem c1_classifier_failure_uses_mock (co : ClientOutcome) (pub : Publication)
    (h : co = ClientOutcome.callFailed ∨ co = ClientOutcome.noClient) :
    analyze_foreign_affiliations co pub = mock_analyze_foreign_affiliations pub := by
  rcases h with rfl | rfl <;> rfl

/-- Witness for C1's amended theorem at the failed-call outcome. -/
theorem c1_classifier_failure_uses_mock_check :
    analyze_foreign_affiliations ClientOutcome.callFailed emptyPub =
      mock_analyze_foreign_affiliations emptyPub :=
  c1_classifier_failure_uses_mock ClientOutcome.callFailed emptyPub (Or.inl rfl)

/-- The fabricated output row of the C1 counterexample run. -/
def rowFromMock : Row :=
  { publication_name := Val.str "", research_title := Val.str ""
  , author_name := "Jane Smith", organization_affiliation := orgAffiliation
  , countries_of_origin := "", flagged := "No", flagged_countries := ""
  , confidence_score := Val.int 1, funding_source := "" }

/-- C1 counterexample: one researcher, one successfully fetched publication, and a
    classification call that raises.  The claim says that publication's output row is
    skipped; instead the run emits exactly one row, built from the mock analysis
    (note `confidence_score = 1`, the mock's keyword-based score). -/
theorem c1_failed_classification_still_emits_row :
    runMain (fun _ => none) (fun _ => ClientOutcome.callFailed)
      (fun _ => FetchOutcome.ok (Val.list [Val.dict []])) [⟨"Smith", "Jane"⟩] =
    some [rowFromMock] := rfl

/-- C3 (amended): a fetch failure never aborts the run — but only a failure that
    escapes `use_pubmed_search` (caught in `query_pubmed_publications`) makes the
    researcher contribute no publications; a failure of the MCP call inside
    `use_pubmed_search` is silently replaced by the three mock publications. -/
theorem c3_fetch_failure_semantics (decode : String → Option Val)
    (cls : Publication → ClientOutcome) (fetch : Researcher → FetchOutcome)
    (r : Researcher) (rs : List Researcher)
    (h : fetch r = FetchOutcome.raised) :
    runMain decode cls fetch (r :: rs) = runMain decode cls fetch rs ∧
    query_pubmed_publications decode (fetch r) r = [] ∧
    (query_pubmed_publications decode FetchOutcome.mcpFailed r).length = 3 := by
  refine ⟨?_, by rw [h]; rfl, ?_⟩
  · show (match processPubs cls r (query_pubmed_publications decode (fetch r) r) with
      | none => none
      | some a => match runMain decode cls fetch rs with
        | none => none
        | some b => some (a ++ b)) = runMain decode cls fetch rs
    rw [h]
    show (match runMain decode cls fetch rs with
      | none => none
      | some b => some ([] ++ b)) = runMain decode cls fetch rs
    cases runMain decode cls fetch rs <;> simp
  · rfl

/-- Witness for C3's amended theorem: with the failing researcher first, the run's
    output equals the run over the remaining researchers alone. -/
theorem c3_fetch_failure_semantics_check :
    runMain (fun _ => none) (fun _ => ClientOutcome.callFailed)
        (fun _ => FetchOutcome.raised) [⟨"Smith", "Jane"⟩, ⟨"Doe", "John"⟩] =
      runMain (fun _ => none) (fun _ => ClientOutcome.callFailed)
        (fun _ => FetchOutcome.raised) [⟨"Doe", "John"⟩] :=
  (c3_fetch_failure_semantics (fun _ => none) (fun _ => ClientOutcome.callFailed)
    (fun _ => FetchOutcome.raised) ⟨"Smith", "Jane"⟩ [⟨"Doe", "John"⟩] rfl).1

/-- C3 counterexample: the MCP call raising inside `use_pubmed_search` is a fetch
    failure, yet the researcher contributes three (mock) publications — not none. -/
theorem c3_mcp_failure_yields_mock_publications :
    query_pubmed_publications (fun _ => none) FetchOutcome.mcpFailed ⟨"Smith", "Jane"⟩ =
      [mockPub1 "Smith, Jane", mockPub2 "Smith, Jane", mockPub3 "Smith, Jane"] ∧
    query_pubmed_publications (fun _ => none) FetchOutcome.mcpFailed ⟨"Smith", "Jane"⟩ ≠ [] := by
  have h1 : query_pubmed_publications (fun _ => none) FetchOutcome.mcpFailed ⟨"Smith", "Jane"⟩ =
      [mockPub1 "Smith, Jane", mockPub2 "Smith, Jane", mockPub3 "Smith, Jane"] := rfl
  refine ⟨h1, ?_⟩
  rw [h1]
  simp

theorem concatMap_congr (g h : α → List β) (l : List α) (hgh : ∀ a ∈ l, g a = h a) :
    concatMap g l = concatMap h l := by
  induction l with
  | nil => rfl
  | cons a as ih =>
    simp [concatMap, hgh a (by simp), ih (fun x hx => hgh x (by simp [hx]))]

theorem fieldFragments_eq_spec (d : List (String × Val)) (f : String)
    (hf : ∀ xs, d.lookup f = some (Val.list xs) → ∀ v ∈ xs, ∃ s, v = Val.str s) :
    fieldFragments d f = (spec_field_fragments d f).map Val.str := by
  unfold fieldFragments spec_field_fragments
  cases hv : d.lookup f with
  | none => rfl
  | some v =>
    cases v with
    | str s => rfl
    | int n => rfl
    | null => rfl
    | dict kd => simp [List.map_map]
    | list xs =>
      have hxs := hf xs hv
      clear hf hv
      induction xs with
      | nil => rfl
      | cons x t ih =>
        obtain ⟨s, rfl⟩ := hxs x (List.mem_cons_self x t)
        simp only [List.map_cons]
        rw [← ih (fun v hv => hxs v (List.mem_cons_of_mem _ hv))]

theorem process_single_item (decode : String → Option Val) (d : List (String × Val))
    (p : Publication) (h : buildPub d = some p) :
    process_pubmed_results decode (Val.list [Val.dict d]) = [p] := by
  unfold process_pubmed_results processTry
  simp [pyIter, mapOption, h]

/-- C7 (amended): on records whose candidate funding fields hold only string
    elements inside lists, `funding_text` is exactly the spec's description — the
    fragments of `funding`, `funding_info`, `grant_info`, `grants`, `acknowledgments`
    in field-then-item order (one `"key: value"` per mapping entry, one per list
    element, one per string), with the falsy (empty) fragments removed, joined by
    `"; "`.  A truthy non-string list element instead makes the join raise, dropping
    the whole batch. -/
theorem c7_funding_text_refines_spec (d : List (String × Val))
    (hstr : ∀ f ∈ fundingFieldNames, ∀ xs, d.lookup f = some (Val.list xs) →
        ∀ v ∈ xs, ∃ s, v = Val.str s) :
    extract_funding_info d =
      some (String.intercalate "; " ((spec_funding_fragments d).filter nonEmptyStr)) := by
  unfold extract_funding_info spec_funding_fragments
  rw [concatMap_congr (fieldFragments d) (fun f => (spec_field_fragments d f).map Val.str)
        fundingFieldNames (fun f hf => fieldFragments_eq_spec d f (hstr f hf)),
      concatMap_map_str, pyJoinFiltered_map_str]

/-- Witness for C7's amended theorem on a record with a mapping-valued `funding`
    and a string-valued `funding_info`. -/
theorem c7_funding_text_refines_spec_check :
    extract_funding_info [("funding", Val.dict [("NIH", Val.str "R01")]),
        ("funding_info", Val.str "ACME")] =
      some (String.intercalate "; "
        ((spec_funding_fragments [("funding", Val.dict [("NIH", Val.str "R01")]),
            ("funding_info", Val.str "ACME")]).filter nonEmptyStr)) := by
  refine c7_funding_text_refines_spec _ ?_
  intro f hf xs hxs
  simp only [fundingFieldNames, List.mem_cons, List.not_mem_nil, or_false] at hf
  rcases hf with rfl | rfl | rfl | rfl | rfl <;> simp [List.lookup] at hxs

/-- C7 counterexample: on the record `{'funding': [5]}` the claim's algorithm would
    produce the funding text `"5"`, but `'; '.join` raises on the non-string fragment,
    so extraction fails (and `process_pubmed_results` drops the whole batch). -/
theorem c7_nonstring_fragment_raises :
    extract_funding_info [("funding", Val.list [Val.int 5])] = none ∧
    process_pubmed_results (fun _ => none)
      (Val.list [Val.dict [("funding", Val.list [Val.int 5])]]) = [] := ⟨rfl, rfl⟩

/-- C4 (amended): normalization never raises at the batch level (a raising record
    yields `[]`), and every *absent* field degrades to its empty default — but a field
    *present* with a malformed value (including `None`) is passed through unchanged
    rather than degraded.  Whenever an item normalizes, every absent field of the
    result is the empty string / empty sequence, and the two flattened text fields are
    always strings. -/
theorem c4_absent_fields_default (decode : String → Option Val)
    (d : List (String × Val)) (p : Publication)
    (h : buildPub d = some p) :
    process_pubmed_results decode (Val.list [Val.dict d]) = [p] ∧
    (d.lookup "title" = none → p.title = Val.str "") ∧
    (d.lookup "authors" = none → p.authors = Val.list []) ∧
    (d.lookup "journal" = none → p.journal = Val.str "") ∧
    (d.lookup "publication_date" = none → p.publication_date = Val.str "") ∧
    (d.lookup "abstract" = none → p.abstract = Val.str "") ∧
    (d.lookup "doi" = none → p.doi = Val.str "") ∧
    (d.lookup "pmid" = none → p.pmid = Val.str "") ∧
    (d.lookup "keywords" = none → p.keywords = Val.list []) ∧
    (d.lookup "url" = none → p.url = Val.str "") ∧
    (∃ s, p.affiliations = Val.str s) ∧
    (∃ s, p.funding_info = Val.str s) := by
  refine ⟨process_single_item decode d p h, ?_⟩
  unfold buildPub at h
  cases ha : extract_affiliations d with
  | none => rw [ha] at h; cases h
  | some a =>
    cases hfi : extract_funding_info d with
    | none => rw [ha, hfi] at h; cases h
    | some fi =>
      rw [ha, hfi] at h
      obtain rfl := Option.some.inj h
      refine ⟨?_, ?_, ?_, ?_, ?_, ?_, ?_, ?_, ?_, ⟨a, rfl⟩, ⟨fi, rfl⟩⟩ <;>
        intro hk <;> simp [journalField, hk]

/-- Witness for C4's amended theorem: the empty raw item normalizes to the
    all-defaults publication. -/
theorem c4_absent_fields_default_check :
    process_pubmed_results (fun _ => none) (Val.list [Val.dict []]) = [emptyPub] ∧
    emptyPub.title = Val.str "" ∧ emptyPub.keywords = Val.list [] :=
  ⟨(c4_absent_fields_default (fun _ => none) [] emptyPub rfl).1,
   (c4_absent_fields_default (fun _ => none) [] emptyPub rfl).2.1 rfl,
   (c4_absent_fields_default (fun _ => none) [] emptyPub rfl).2.2.2.2.2.2.2.2.1 rfl⟩

/-- C4 counterexample: a raw record carrying `'title': None` normalizes without
    raising, but the resulting canonical publication's `title` is `None` — a null
    field, not an empty-string degradation. -/
theorem c4_null_title_passes_through :
    (process_pubmed_results (fun _ => none)
        (Val.list [Val.dict [("title", Val.null)]])).map Publication.title =
      [Val.null] := rfl

/-- C8 (amended): the normalized journal name is the raw journal field's `name` entry
    when that field is a mapping, the field itself when it is a string, the empty
    string when the field is absent — and for any other present value (list, number,
    `None`) the raw value itself, passed through unchanged rather than the empty
    string. -/
theorem c8_journal_normalization (decode : String → Option Val)
    (d : List (String × Val)) (p : Publication)
    (h : buildPub d = some p) :
    process_pubmed_results decode (Val.list [Val.dict d]) = [p] ∧
    p.journal = journalField d ∧
    (∀ jd, d.lookup "journal" = some (Val.dict jd) →
        journalField d = (jd.lookup "name").getD (Val.str "")) ∧
    (∀ s, d.lookup "journal" = some (Val.str s) → journalField d = Val.str s) ∧
    (d.lookup "journal" = none → journalField d = Val.str "") ∧
    (∀ v, d.lookup "journal" = some v → (∀ jd, v ≠ Val.dict jd) → journalField d = v) := by
  refine ⟨process_single_item decode d p h, ?_, ?_, ?_, ?_, ?_⟩
  · unfold buildPub at h
    cases ha : extract_affiliations d with
    | none => rw [ha] at h; cases h
    | some a =>
      cases hfi : extract_funding_info d with
      | none => rw [ha, hfi] at h; cases h
      | some fi =>
        rw [ha, hfi] at h
        obtain rfl := Option.some.inj h
        rfl
  · intro jd hk; simp [journalField, hk]
  · intro s hk; simp [journalField, hk]
  · intro hk; simp [journalField, hk]
  · intro v hk hnd
    unfold journalField
    rw [hk]
    cases v with
    | dict jd => exact absurd rfl (hnd jd)
    | str s => rfl
    | int n => rfl
    | null => rfl
    | list xs => rfl

/-- Witness for C8's amended theorem on a mapping-valued journal field. -/
theorem c8_journal_normalization_check :
    process_pubmed_results (fun _ => none)
        (Val.list [Val.dict [("journal", Val.dict [("name", Val.str "Nature")])]]) =
      [{ emptyPub with journal := Val.str "Nature" }] ∧
    ({ emptyPub with journal := Val.str "Nature" } : Publication).journal =
      journalField [("journal", Val.dict [("name", Val.str "Nature")])] :=
  ⟨(c8_journal_normalization (fun _ => none) [("journal", Val.dict [("name", Val.str "Nature")])]
      { emptyPub with journal := Val.str "Nature" } rfl).1,
   (c8_journal_normalization (fun _ => none) [("journal", Val.dict [("name", Val.str "Nature")])]
      { emptyPub with journal := Val.str "Nature" } rfl).2.1⟩

/-- C8 counterexample: a list-valued journal field is passed through unchanged by
    normalization, not replaced by the empty string as the claim states for
    "any other value". -/
theorem c8_list_journal_passes_through :
    (process_pubmed_results (fun _ => none)
        (Val.list [Val.dict [("journal", Val.list [Val.str "J"])]])).map Publication.journal =
      [Val.list [Val.str "J"]] := rfl
